import Mathlib

/-!
Shallow embedding of the CPAPathwayAnalysis repository (two Python scripts:
`analysis/barrier_by_group.py` and `analysis/barrier_summary.py`), together
with theorems settling the specification claims about its aggregation logic.

Conventions of the embedding:
* A CSV file is a `List (List String)` (list of rows, each a list of fields).
* Python `str.strip()` is `pyStrip`, `str.lower()` is `pyLower` (character
  list implementations, so terms evaluate by kernel reduction); Python string
  truthiness is `≠ ""`.
* Python floats are modelled as rationals `ℚ` (the percentage arithmetic the
  claims are about is exact rational arithmetic).
* `row[i]` is modelled as `cell row i = row.getD i ""`; the scripts assume the
  table invariant that all rows have the header's field count, and the claims
  are stated for that regime.
* A `raise SystemExit(msg)` (and the one uncaught `ValueError`) becomes an
  `Except.error` carrying a constructor of `PipelineError`; the constructor's
  `message` records the diagnostic text the Python process prints.
* Python's `list.sort` / `sorted` (a stable sort) is modelled by tagging each
  element with its list position and sorting with `List.insertionSort` under
  the lexicographic order "key first, original position second", which is the
  standard semantics of a stable key sort.
-/

namespace CPA

/-- Python `row[i]` field access (rows are assumed rectangular per the table
invariant; out-of-range access, which would fault in Python, defaults to ""). -/
def cell (row : List String) (i : Nat) : String :=
  row.getD i ""

/-- Python `str.strip()`: remove leading and trailing whitespace.  Written
over the character list so that it evaluates by kernel reduction. -/
def pyStrip (s : String) : String :=
  String.mk
    (((s.data.dropWhile Char.isWhitespace).reverse.dropWhile
      Char.isWhitespace).reverse)

/-- Python `str.lower()` (ASCII case folding, which is all the fixed
keyword vocabulary needs).  Written over the character list so that it
evaluates by kernel reduction. -/
def pyLower (s : String) : String :=
  String.mk (s.data.map Char.toLower)

/-- Python `list.index` restricted to strings, as an `Option`: index of the
first occurrence of `s`, or `none` where Python raises `ValueError`. -/
def pyIndex (s : String) : List String → Option Nat
  | [] => none
  | q :: qs => if q = s then some 0 else (pyIndex s qs).map (· + 1)

/-- The fatal run-terminating conditions of the two scripts.  The first four
are explicit `raise SystemExit(...)` sites; `responseIdNotFound` is the
uncaught `ValueError` raised by `headers.index("ResponseId")` in
`barrier_summary.py` (the process still terminates non-zero, printing the
exception message). -/
inductive PipelineError where
  | notEnoughRows
  | groupQuestionNotFound
  | noGroupValues
  | barrierQuestionNotFound (q : String)
  | responseIdNotFound
deriving DecidableEq

/-- The human-readable diagnostic each failure carries when the run
terminates. -/
def PipelineError.message : PipelineError → String
  | .notEnoughRows => "Dataset does not contain enough rows to parse."
  | .groupQuestionNotFound =>
      "Group question not found: Are you currently an undergraduate student or graduate student?"
  | .noGroupValues => "No respondent group values found."
  | .barrierQuestionNotFound q => "Barrier question not found in dataset: " ++ q
  | .responseIdNotFound => "ValueError: 'ResponseId' is not in list"

/-- Counting appearances of a "top-two" indicator value in a list of
responses: `sum(1 for v in responses if v in topTwo)`.  Both pipelines count
Likert responses this way, each against its own `LIKERT_TOP_TWO` constant. -/
def countTopTwo (topTwo : List String) (responses : List String) : Nat :=
  (responses.filter fun v => v ∈ topTwo).length

end CPA

namespace CPA.ByGroup

/-- `GROUP_QUESTION` from `barrier_by_group.py`. -/
def GROUP_QUESTION : String :=
  "Are you currently an undergraduate student or graduate student?"

/-- `LIKERT_TOP_TWO` from `barrier_by_group.py` (note: includes
"Somewhat agree"). -/
def LIKERT_TOP_TWO : List String :=
  ["Strongly agree", "Somewhat agree", "Agree"]

/-- The `BarrierQuestion` dataclass. -/
structure BarrierQuestion where
  label : String
  question_text : String
  indicator_values : List String
deriving DecidableEq

/-- The exact question text of the single configured barrier question. -/
def delayQuestionText : String :=
  "To what extent do you agree with the following statement about the value of a graduate accounting degree?\n\nEarning a graduate degree may delay my career advancement compared to peers who started full-time jobs earlier."

/-- `BARRIER_QUESTIONS` from `barrier_by_group.py`. -/
def BARRIER_QUESTIONS : List BarrierQuestion :=
  [{ label := "Graduate degree may delay career advancement",
     question_text := delayQuestionText,
     indicator_values := LIKERT_TOP_TWO }]

/-- The `BarrierResult` dataclass of `barrier_by_group.py`. -/
structure BarrierResult where
  label : String
  group : String
  count : Nat
  total : Nat
deriving DecidableEq

/-- `BarrierResult.percentage`:
`(self.count / self.total * 100.0) if self.total else 0.0`. -/
def BarrierResult.percentage (r : BarrierResult) : ℚ :=
  if r.total ≠ 0 then (r.count : ℚ) / (r.total : ℚ) * 100 else 0

/-- `group_values = [row[group_index].strip() for row in data_rows]`. -/
def groupValues (data_rows : List (List String)) (gi : Nat) : List String :=
  data_rows.map fun row => pyStrip (cell row gi)

/-- `groups = sorted({value for value in group_values if value})`: the
distinct non-blank group values in ascending order. -/
def sortedGroups (data_rows : List (List String)) (gi : Nat) : List String :=
  (((groupValues data_rows gi).filter fun v => v ≠ "").dedup).insertionSort (· ≤ ·)

/-- `group_totals[group] = sum(1 for value in group_values if value == group)`. -/
def groupTotal (data_rows : List (List String)) (gi : Nat) (g : String) : Nat :=
  ((groupValues data_rows gi).filter fun v => v = g).length

/-- The inner counting loop for one barrier question and one group: among the
rows whose stripped group cell equals `g`, count those whose stripped response
lies in the indicator set. -/
def indicatorCount (data_rows : List (List String)) (gi qi : Nat)
    (inds : List String) (g : String) : Nat :=
  countTopTwo inds
    ((data_rows.filter fun row => pyStrip (cell row gi) = g).map
      fun row => pyStrip (cell row qi))

/-- The results appended for one barrier question: one `BarrierResult` per
group, in group order. -/
def resultsFor (data_rows : List (List String)) (gi : Nat)
    (groups : List String) (b : BarrierQuestion) (qi : Nat) : List BarrierResult :=
  groups.map fun g =>
    { label := b.label, group := g,
      count := indicatorCount data_rows gi qi b.indicator_values g,
      total := groupTotal data_rows gi g }

/-- The `for barrier in BARRIER_QUESTIONS` loop: resolve each question text
(aborting with a diagnostic on the first failure) and accumulate the
per-group results in order. -/
def allResults (questions : List String) (data_rows : List (List String))
    (gi : Nat) (groups : List String) :
    List BarrierQuestion → Except PipelineError (List BarrierResult)
  | [] => .ok []
  | b :: bs =>
    match pyIndex b.question_text questions with
    | none => .error (.barrierQuestionNotFound b.question_text)
    | some qi =>
      match allResults questions data_rows gi groups bs with
      | .error e => .error e
      | .ok rest => .ok (resultsFor data_rows gi groups b qi ++ rest)

end CPA.ByGroup

namespace CPA.ByGroup

/-- Default used to read off the head/last of the (provably nonempty) sorted
list, mirroring `sorted_results[0]` / `sorted_results[-1]`. -/
def dflt : BarrierResult :=
  { label := "", group := "", count := 0, total := 0 }

/-- The ordering realised by Python's stable
`sorted(barrier_results, key=lambda item: item.percentage)`: percentage
first, original list position as tie break. -/
def percRel (p q : Nat × BarrierResult) : Prop :=
  p.2.percentage < q.2.percentage ∨
    (p.2.percentage = q.2.percentage ∧ p.1 ≤ q.1)

instance percRelDec : DecidableRel percRel := fun _ _ => by
  unfold percRel; infer_instance

instance percRelRefl : IsRefl (Nat × BarrierResult) percRel :=
  ⟨fun _ => Or.inr ⟨rfl, le_refl _⟩⟩

instance percRelTotal : IsTotal (Nat × BarrierResult) percRel := by
  constructor
  intro p q
  rcases lt_trichotomy p.2.percentage q.2.percentage with h | h | h
  · exact Or.inl (Or.inl h)
  · rcases Nat.le_total p.1 q.1 with h' | h'
    · exact Or.inl (Or.inr ⟨h, h'⟩)
    · exact Or.inr (Or.inr ⟨h.symm, h'⟩)
  · exact Or.inr (Or.inl h)

instance percRelTrans : IsTrans (Nat × BarrierResult) percRel := by
  constructor
  rintro p q s (h | ⟨h, h'⟩) (g | ⟨g, g'⟩)
  · exact Or.inl (h.trans g)
  · exact Or.inl (g ▸ h)
  · exact Or.inl (h ▸ g)
  · exact Or.inr ⟨h.trans g, h'.trans g'⟩

/-- Python's stable `sorted(l, key=lambda item: item.percentage)`. -/
def pySortedByPercentage (l : List BarrierResult) : List BarrierResult :=
  (l.enum.insertionSort percRel).map Prod.snd

/-- `barrier_results`: the results carrying one barrier question's label. -/
def brsOf (results : List BarrierResult) (b : BarrierQuestion) :
    List BarrierResult :=
  results.filter fun r => r.label = b.label

/-- `lowest = sorted_results[0]`. -/
def lowestOf (results : List BarrierResult) (b : BarrierQuestion) :
    BarrierResult :=
  (pySortedByPercentage (brsOf results b)).headD dflt

/-- `highest = sorted_results[-1]`. -/
def highestOf (results : List BarrierResult) (b : BarrierQuestion) :
    BarrierResult :=
  (pySortedByPercentage (brsOf results b)).getLastD dflt

/-- The summary-section computation for one barrier question: stable-sort its
results by percentage, take the first (`lowest`) and last (`highest`), emit
the comparison data `(highest, lowest, gap)` unless the two groups coincide.
Returns `none` where the Python loop `continue`s without emitting a line. -/
def summaryFor (results : List BarrierResult) (b : BarrierQuestion) :
    Option (BarrierResult × BarrierResult × ℚ) :=
  if brsOf results b = [] then none
  else if (highestOf results b).group = (lowestOf results b).group then none
  else some (highestOf results b, lowestOf results b,
    (highestOf results b).percentage - (lowestOf results b).percentage)

/-- The full summary section: one optional line per configured barrier. -/
def summaries (results : List BarrierResult) :
    List (BarrierQuestion × (BarrierResult × BarrierResult × ℚ)) :=
  BARRIER_QUESTIONS.filterMap fun b => (summaryFor results b).map fun t => (b, t)

/-- The observable outcome of a successful `barrier_by_group.py` run. -/
structure GroupOutput where
  groups : List String
  results : List BarrierResult
  summaryLines : List (BarrierQuestion × (BarrierResult × BarrierResult × ℚ))
deriving DecidableEq

/-- `main()` of `barrier_by_group.py` (modulo file I/O and string rendering):
row-count validation, group-column resolution, group extraction, per-group
aggregation, summary comparison. -/
def run (rows : List (List String)) : Except PipelineError GroupOutput :=
  if rows.length < 4 then .error .notEnoughRows
  else
    let questions := rows.getD 1 []
    let data_rows := rows.drop 3
    match pyIndex GROUP_QUESTION questions with
    | none => .error .groupQuestionNotFound
    | some gi =>
      let groups := sortedGroups data_rows gi
      if groups = [] then .error .noGroupValues
      else
        match allResults questions data_rows gi groups BARRIER_QUESTIONS with
        | .error e => .error e
        | .ok results =>
          .ok { groups := groups, results := results,
                summaryLines := summaries results }

end CPA.ByGroup

namespace CPA.Summary

/-- `BARRIER_KEYWORDS` from `barrier_summary.py`. -/
def BARRIER_KEYWORDS : List String :=
  ["barrier", "obstacle", "challenge", "difficulty", "difficult"]

/-- `LIKERT_TOP_TWO` from `barrier_summary.py` (note: does NOT include
"Somewhat agree"). -/
def LIKERT_TOP_TWO : List String :=
  ["Strongly agree", "Agree"]

/-- The agreement vocabulary of `LIKERT_SETS`. -/
def agreementScale : List String :=
  ["Strongly agree", "Agree", "Neither agree nor disagree", "Disagree",
   "Strongly disagree"]

/-- The importance vocabulary of `LIKERT_SETS`. -/
def importanceScale : List String :=
  ["Very important", "Extremely important", "Moderately important",
   "Slightly important", "Not at all important"]

/-- The likelihood vocabulary of `LIKERT_SETS`. -/
def likelihoodScale : List String :=
  ["Very likely", "Somewhat likely", "Neither likely nor unlikely",
   "Somewhat unlikely", "Very unlikely"]

/-- `LIKERT_SETS` from `barrier_summary.py`. -/
def LIKERT_SETS : List (List String) :=
  [agreementScale, importanceScale, likelihoodScale]

/-- The `BarrierResult` dataclass of `barrier_summary.py` (the percentage is
stored at construction time here, not derived). -/
structure BarrierResult where
  name : String
  count : Nat
  percentage : ℚ
deriving DecidableEq

/-- Character-list helper: does the second list start with the first? -/
def charsLeadWith : List Char → List Char → Bool
  | [], _ => true
  | _ :: _, [] => false
  | c :: cs, d :: ds => c = d && charsLeadWith cs ds

/-- Character-list helper: does `pat` occur contiguously inside the list? -/
def charsOccurIn (pat : List Char) : List Char → Bool
  | [] => charsLeadWith pat []
  | d :: ds => charsLeadWith pat (d :: ds) || charsOccurIn pat ds

/-- Python's substring test `pat in s`. -/
def strOccursIn (pat s : String) : Bool :=
  charsOccurIn pat.toList s.toList

/-- `is_barrier_question`: case-insensitive keyword containment. -/
def is_barrier_question (question : String) : Bool :=
  BARRIER_KEYWORDS.any fun k => strOccursIn k (pyLower question)

/-- `is_multiselect`: the observed value set is a subset of
`{"Selected", "Not Selected"}`. -/
def is_multiselect (values : List String) : Bool :=
  values.all fun v => v = "Selected" ∨ v = "Not Selected"

/-- `is_likert`: the observed value set is a subset of one of the fixed
Likert vocabularies (first match wins, as in the Python loop). -/
def is_likert (values : List String) : Bool :=
  LIKERT_SETS.any fun s => values.all fun v => v ∈ s

/-- `column_values = {row[idx] for row in data_rows if row[idx]}`: the
distinct non-empty (truthy, unstripped) values observed in column `idx`. -/
def column_values (data_rows : List (List String)) (idx : Nat) : List String :=
  ((data_rows.map fun row => cell row idx).filter fun v => v ≠ "").dedup

/-- The classification the `if`/`elif`/`else` chain realises for a column's
observed value set. -/
inductive Classification where
  | multiselect
  | likert
  | freeText
deriving DecidableEq

/-- The branch taken by the `if is_multiselect ... elif is_likert ... else`
chain. -/
def classify (values : List String) : Classification :=
  if is_multiselect values then .multiselect
  else if is_likert values then .likert
  else .freeText

/-- The count computed for a barrier column, following the branch structure of
the source: `Selected` matches for multiselect columns, `LIKERT_TOP_TWO`
matches for Likert columns, non-blank (stripped) values otherwise. -/
def classCount (data_rows : List (List String)) (idx : Nat) : Nat :=
  let vals := column_values data_rows idx
  if is_multiselect vals then
    (data_rows.filter fun row => cell row idx = "Selected").length
  else if is_likert vals then
    countTopTwo LIKERT_TOP_TWO (data_rows.map fun row => cell row idx)
  else
    (data_rows.filter fun row => pyStrip (cell row idx) ≠ "").length

/-- `percentage = (count / total_respondents * 100) if total_respondents
else 0.0`. -/
def mkPercentage (count total : Nat) : ℚ :=
  if total ≠ 0 then (count : ℚ) / (total : ℚ) * 100 else 0

/-- The pre-sort results in column-encounter order, each tagged with its
column index: `barrier_columns` (the keyword-matched columns of the
question-text row, in increasing index order, as a Python dict preserves
insertion order) filtered by the `if not column_values: continue` skip. -/
def preResults (questions : List String) (data_rows : List (List String))
    (total : Nat) : List (Nat × BarrierResult) :=
  (questions.enum.filter fun p => is_barrier_question p.2).filterMap fun p =>
    if column_values data_rows p.1 = [] then none
    else some (p.1,
      { name := p.2, count := classCount data_rows p.1,
        percentage := mkPercentage (classCount data_rows p.1) total })

/-- The ordering realised by Python's stable
`results.sort(key=lambda item: item.count, reverse=True)`: count descending
first, original list position as tie break (Python's `reverse=True` keeps
equal elements in their original order). -/
def countRel (p q : Nat × BarrierResult) : Prop :=
  q.2.count < p.2.count ∨ (p.2.count = q.2.count ∧ p.1 ≤ q.1)

instance countRelDec : DecidableRel countRel := fun _ _ => by
  unfold countRel; infer_instance

instance countRelRefl : IsRefl (Nat × BarrierResult) countRel :=
  ⟨fun _ => Or.inr ⟨rfl, le_refl _⟩⟩

instance countRelTotal : IsTotal (Nat × BarrierResult) countRel := by
  constructor
  intro p q
  rcases lt_trichotomy p.2.count q.2.count with h | h | h
  · exact Or.inr (Or.inl h)
  · rcases Nat.le_total p.1 q.1 with h' | h'
    · exact Or.inl (Or.inr ⟨h, h'⟩)
    · exact Or.inr (Or.inr ⟨h.symm, h'⟩)
  · exact Or.inl (Or.inl h)

instance countRelTrans : IsTrans (Nat × BarrierResult) countRel := by
  constructor
  rintro p q s (h | ⟨h, h'⟩) (g | ⟨g, g'⟩)
  · exact Or.inl (g.trans h)
  · exact Or.inl (g ▸ h)
  · exact Or.inl (h ▸ g)
  · exact Or.inr ⟨h.trans g, h'.trans g'⟩

/-- Python's stable `results.sort(key=lambda item: item.count,
reverse=True)`. -/
def pySortByCountDesc (l : List BarrierResult) : List BarrierResult :=
  (l.enum.insertionSort countRel).map Prod.snd

/-- `headers = rows[0]`. -/
def headers (rows : List (List String)) : List String :=
  rows.getD 0 []

/-- `questions = rows[1]`. -/
def questions (rows : List (List String)) : List String :=
  rows.getD 1 []

/-- `data_rows = rows[3:]`. -/
def data_rows (rows : List (List String)) : List (List String) :=
  rows.drop 3

/-- `headers.index("ResponseId")`, or `none` where Python raises
`ValueError`. -/
def respIdx? (rows : List (List String)) : Option Nat :=
  pyIndex "ResponseId" (headers rows)

/-- `total_respondents = sum(1 for row in data_rows if
row[response_id_index].strip())` (0 placeholder when the column is missing,
in which case the run never reaches this computation). -/
def total_respondents (rows : List (List String)) : Nat :=
  match respIdx? rows with
  | some i => ((data_rows rows).filter fun row => pyStrip (cell row i) ≠ "").length
  | none => 0

/-- The final ranked result list of a successful run. -/
def sortedResults (rows : List (List String)) : List BarrierResult :=
  pySortByCountDesc
    ((preResults (questions rows) (data_rows rows) (total_respondents rows)).map
      Prod.snd)

/-- The observable outcome of a successful `barrier_summary.py` run. -/
structure SummaryOutput where
  total_respondents : Nat
  results : List BarrierResult
deriving DecidableEq

/-- `main()` of `barrier_summary.py` (modulo file I/O, chart drawing and
string rendering): row-count validation, respondent-id resolution, keyword
column selection, classification, counting, ranking. -/
def run (rows : List (List String)) : Except PipelineError SummaryOutput :=
  if rows.length < 4 then .error .notEnoughRows
  else
    match respIdx? rows with
    | none => .error .responseIdNotFound
    | some _ =>
      .ok { total_respondents := total_respondents rows,
            results := sortedResults rows }

end CPA.Summary

namespace CPA

/-- `pyIndex` returns `none` exactly when the sought value is absent. -/
theorem pyIndex_eq_none_iff (s : String) (l : List String) :
    pyIndex s l = none ↔ s ∉ l := by
  induction l with
  | nil => simp [pyIndex]
  | cons q qs ih =>
    by_cases h : q = s
    · simp [pyIndex, h]
    · simp [pyIndex, h, Option.map_eq_none, ih, Ne.symm h]

theorem headD_mem {α : Type} (l : List α) (d : α) (h : l ≠ []) :
    l.headD d ∈ l := by
  cases l with
  | nil => exact absurd rfl h
  | cons a t => simp

theorem getLastD_mem {α : Type} :
    ∀ (l : List α) (d : α), l ≠ [] → l.getLastD d ∈ l
  | [a], _, _ => by simp
  | a :: b :: t, d, _ => by
    rw [List.getLastD_cons]
    exact List.mem_cons_of_mem a (getLastD_mem (b :: t) a (by simp))

theorem sorted_headD_rel {α : Type} {r : α → α → Prop}
    (hrefl : ∀ x, r x x) {l : List α} (hs : l.Sorted r) (d : α) :
    ∀ x ∈ l, r (l.headD d) x := by
  cases l with
  | nil => intro x hx; simp at hx
  | cons a t =>
    intro x hx
    rcases List.mem_cons.mp hx with rfl | hx
    · simpa using hrefl x
    · simpa using List.rel_of_sorted_cons hs _ hx

theorem sorted_rel_getLastD {α : Type} {r : α → α → Prop}
    (hrefl : ∀ x, r x x) :
    ∀ {l : List α}, l.Sorted r → ∀ (d : α), ∀ x ∈ l, r x (l.getLastD d) := by
  intro l
  induction l with
  | nil => intro _ d x hx; simp at hx
  | cons a t ih =>
    intro hs d x hx
    cases t with
    | nil =>
      rcases List.mem_singleton.mp hx with rfl
      simpa using hrefl x
    | cons b t' =>
      rw [List.getLastD_cons]
      rcases List.mem_cons.mp hx with h | hx'
      · subst h
        exact List.rel_of_sorted_cons hs _ (getLastD_mem (b :: t') x (by simp))
      · exact ih hs.of_cons a x hx'

/-- The position tags in a stably sorted tagged list are pairwise distinct. -/
theorem sortedPairs_pairwise_ne_fst {β : Type} (r : (Nat × β) → (Nat × β) → Prop)
    [DecidableRel r] (l : List β) :
    (l.enum.insertionSort r).Pairwise fun p q => p.1 ≠ q.1 := by
  have hperm : ((l.enum.insertionSort r).map Prod.fst).Perm (l.enum.map Prod.fst) :=
    (List.perm_insertionSort r l.enum).map Prod.fst
  have hnd : ((l.enum.insertionSort r).map Prod.fst).Nodup :=
    hperm.nodup_iff.mpr (List.nodup_enum_map_fst l)
  exact List.pairwise_map.mp hnd

/-- A stable key sort returns a permutation of its input. -/
theorem sortedPairs_map_snd_perm {β : Type} (r : (Nat × β) → (Nat × β) → Prop)
    [DecidableRel r] (l : List β) :
    ((l.enum.insertionSort r).map Prod.snd).Perm l := by
  have hperm : ((l.enum.insertionSort r).map Prod.snd).Perm (l.enum.map Prod.snd) :=
    (List.perm_insertionSort r l.enum).map Prod.snd
  simpa [List.enum_map_snd] using hperm

end CPA

/-- C1: in both pipelines a `BarrierResult` whose total is 0 gets percentage
0 (no division on a zero denominator), and otherwise its percentage is
count / total × 100.  Stated for the `percentage` property of
`barrier_by_group.py` and for the percentage stored by every result the
ranked-summary pipeline constructs. -/
theorem claim_C1_percentage_zero_guard :
    (∀ r : CPA.ByGroup.BarrierResult,
      (r.total = 0 → r.percentage = 0) ∧
      (r.total ≠ 0 → r.percentage = (r.count : ℚ) / (r.total : ℚ) * 100)) ∧
    (∀ (qs : List String) (dr : List (List String)) (t : Nat)
        (p : Nat × CPA.Summary.BarrierResult),
      p ∈ CPA.Summary.preResults qs dr t →
      (t = 0 → p.2.percentage = 0) ∧
      (t ≠ 0 → p.2.percentage = (p.2.count : ℚ) / (t : ℚ) * 100)) := by
  constructor
  · intro r
    constructor
    · intro h; simp [CPA.ByGroup.BarrierResult.percentage, h]
    · intro h; simp [CPA.ByGroup.BarrierResult.percentage, h]
  · intro qs dr t p hp
    rcases List.mem_filterMap.mp hp with ⟨q, _, hq⟩
    by_cases hempty : CPA.Summary.column_values dr q.1 = []
    · simp [hempty] at hq
    · simp only [hempty, if_false, Option.some.injEq] at hq
      constructor
      · intro h
        rw [← hq]
        simp [CPA.Summary.mkPercentage, h]
      · intro h
        rw [← hq]
        simp [CPA.Summary.mkPercentage, h]

/-- C1 witness: a by-group result with total 0 has percentage 0; one with
count 1, total 2 has the formula percentage; a ranked-summary result of a
dataset with total 0 has percentage 0. -/
theorem claim_C1_percentage_zero_guard_witness :
    ({ label := "a", group := "g", count := 3, total := 0 } :
      CPA.ByGroup.BarrierResult).percentage = 0 ∧
    ({ label := "a", group := "g", count := 1, total := 2 } :
      CPA.ByGroup.BarrierResult).percentage = (1 : ℚ) / 2 * 100 ∧
    ((0, { name := "barrier q", count := 1, percentage := 0 }) :
        Nat × CPA.Summary.BarrierResult).2.percentage = 0 := by
  refine ⟨(claim_C1_percentage_zero_guard.1 _).1 rfl, ?_, ?_⟩
  · have h := (claim_C1_percentage_zero_guard.1
      { label := "a", group := "g", count := 1, total := 2 }).2 (by decide)
    simpa using h
  · have hmem : ((0, { name := "barrier q", count := 1, percentage := 0 }) :
        Nat × CPA.Summary.BarrierResult) ∈
        CPA.Summary.preResults ["barrier q"] [["Strongly agree"], [""]] 0 := by
      decide
    exact (claim_C1_percentage_zero_guard.2 _ _ _ _ hmem).1 rfl

/-- C6: the two pipelines configure different "top-two" Likert indicator
sets: the group-comparison pipeline's set contains "Somewhat agree" and the
ranked-summary pipeline's does not, so the two membership predicates
disagree on that value and the shared counting function applied to the two
sets yields different functions. -/
theorem claim_C6_divergent_top_two_sets :
    "Somewhat agree" ∈ CPA.ByGroup.LIKERT_TOP_TWO ∧
    "Somewhat agree" ∉ CPA.Summary.LIKERT_TOP_TWO ∧
    CPA.countTopTwo CPA.ByGroup.LIKERT_TOP_TWO ["Somewhat agree"] = 1 ∧
    CPA.countTopTwo CPA.Summary.LIKERT_TOP_TWO ["Somewhat agree"] = 0 ∧
    CPA.countTopTwo CPA.ByGroup.LIKERT_TOP_TWO ≠
      CPA.countTopTwo CPA.Summary.LIKERT_TOP_TWO := by
  refine ⟨by decide, by decide, by decide, by decide, ?_⟩
  intro h
  exact absurd (congrFun h ["Somewhat agree"]) (by decide)

/-- Every error the barrier-question loop itself can raise names a missing
barrier question; in particular it is never the row-count diagnostic. -/
theorem CPA.ByGroup.allResults_error_shape :
    ∀ (bs : List CPA.ByGroup.BarrierQuestion) (qs : List String)
      (dr : List (List String)) (gi : Nat) (gs : List String)
      (e : CPA.PipelineError),
      CPA.ByGroup.allResults qs dr gi gs bs = .error e →
      ∃ t, e = .barrierQuestionNotFound t := by
  intro bs
  induction bs with
  | nil => intro qs dr gi gs e h; simp [CPA.ByGroup.allResults] at h
  | cons b bs ih =>
    intro qs dr gi gs e h
    simp only [CPA.ByGroup.allResults] at h
    cases hpi : CPA.pyIndex b.question_text qs with
    | none =>
      rw [hpi] at h
      simp only [Except.error.injEq] at h
      exact ⟨b.question_text, h.symm⟩
    | some qi =>
      rw [hpi] at h
      cases har : CPA.ByGroup.allResults qs dr gi gs bs with
      | error e' =>
        rw [har] at h
        simp only [Except.error.injEq] at h
        subst h
        exact ih qs dr gi gs e' har
      | ok rest =>
        rw [har] at h
        simp at h

/-- C4: both pipelines, on a dataset of fewer than 4 rows, terminate at once
with the diagnostic "Dataset does not contain enough rows to parse." (the
check is the first statement of each `main`, before any column resolution or
aggregation), and on a dataset of 4 or more rows this abort branch is never
taken. -/
theorem claim_C4_min_row_abort :
    ∀ rows : List (List String),
      (rows.length < 4 →
        CPA.ByGroup.run rows = .error .notEnoughRows ∧
        CPA.Summary.run rows = .error .notEnoughRows) ∧
      (4 ≤ rows.length →
        CPA.ByGroup.run rows ≠ .error .notEnoughRows ∧
        CPA.Summary.run rows ≠ .error .notEnoughRows) ∧
      CPA.PipelineError.notEnoughRows.message =
        "Dataset does not contain enough rows to parse." := by
  intro rows
  refine ⟨?_, ?_, rfl⟩
  · intro h
    exact ⟨by simp [CPA.ByGroup.run, h], by simp [CPA.Summary.run, h]⟩
  · intro h
    have hnot : ¬ rows.length < 4 := Nat.not_lt.mpr h
    constructor
    · intro hbad
      simp only [CPA.ByGroup.run, hnot, if_false] at hbad
      cases hpi : CPA.pyIndex CPA.ByGroup.GROUP_QUESTION (rows.getD 1 []) with
      | none => rw [hpi] at hbad; simp at hbad
      | some gi =>
        rw [hpi] at hbad
        by_cases hg : CPA.ByGroup.sortedGroups (rows.drop 3) gi = []
        · simp only [hg, if_true] at hbad
          simp at hbad
        · simp only [hg, if_false] at hbad
          cases har : CPA.ByGroup.allResults (rows.getD 1 []) (rows.drop 3) gi
              (CPA.ByGroup.sortedGroups (rows.drop 3) gi)
              CPA.ByGroup.BARRIER_QUESTIONS with
          | error e =>
            rw [har] at hbad
            simp only [Except.error.injEq] at hbad
            rcases CPA.ByGroup.allResults_error_shape _ _ _ _ _ _ har with ⟨t, ht⟩
            rw [hbad] at ht
            exact CPA.PipelineError.noConfusion ht
          | ok results => rw [har] at hbad; simp at hbad
    · intro hbad
      simp only [CPA.Summary.run, hnot, if_false] at hbad
      cases hpi : CPA.Summary.respIdx? rows with
      | none => rw [hpi] at hbad; simp at hbad
      | some i => rw [hpi] at hbad; simp at hbad

/-- C4 witness: a 3-row dataset aborts with the row-count diagnostic in both
pipelines; a 4-row dataset does not take that branch in either pipeline. -/
theorem claim_C4_min_row_abort_witness :
    CPA.ByGroup.run [[], [], []] = .error .notEnoughRows ∧
    CPA.Summary.run [[], [], []] = .error .notEnoughRows ∧
    CPA.ByGroup.run [[], [], [], []] ≠ .error .notEnoughRows ∧
    CPA.Summary.run [[], [], [], []] ≠ .error .notEnoughRows :=
  ⟨((claim_C4_min_row_abort [[], [], []]).1 (by decide)).1,
   ((claim_C4_min_row_abort [[], [], []]).1 (by decide)).2,
   ((claim_C4_min_row_abort [[], [], [], []]).2.1 (by decide)).1,
   ((claim_C4_min_row_abort [[], [], [], []]).2.1 (by decide)).2⟩

/-- C8: for any 4-row-or-larger dataset whose machine-name header row lacks
"ResponseId", the ranked-summary run terminates as an error (the uncaught
`ValueError`, whose printed message is recorded by `message`); when the
column is present at index `i`, the run succeeds and the total-respondent
count is the number of data rows with a non-blank (stripped) value in that
column. -/
theorem claim_C8_response_id_column :
    ∀ rows : List (List String), 4 ≤ rows.length →
      (("ResponseId" ∉ CPA.Summary.headers rows →
        CPA.Summary.run rows = .error .responseIdNotFound ∧
        CPA.PipelineError.responseIdNotFound.message =
          "ValueError: 'ResponseId' is not in list") ∧
      (∀ i, CPA.Summary.respIdx? rows = some i →
        CPA.Summary.run rows =
          .ok { total_respondents :=
                  ((rows.drop 3).filter fun row =>
                    CPA.pyStrip (CPA.cell row i) ≠ "").length,
                results := CPA.Summary.sortedResults rows } ∧
        CPA.Summary.total_respondents rows =
          ((rows.drop 3).filter fun row =>
            CPA.pyStrip (CPA.cell row i) ≠ "").length)) := by
  intro rows h4
  have hnot : ¬ rows.length < 4 := Nat.not_lt.mpr h4
  constructor
  · intro hnotin
    have hnone : CPA.Summary.respIdx? rows = none :=
      (CPA.pyIndex_eq_none_iff _ _).mpr hnotin
    exact ⟨by simp [CPA.Summary.run, hnot, hnone], rfl⟩
  · intro i hi
    have htot : CPA.Summary.total_respondents rows =
        ((rows.drop 3).filter fun row =>
          CPA.pyStrip (CPA.cell row i) ≠ "").length := by
      simp [CPA.Summary.total_respondents, hi, CPA.Summary.data_rows]
    refine ⟨?_, htot⟩
    simp only [CPA.Summary.run, hnot, if_false, hi]
    rw [htot]

/-- C8 witness: a concrete 4-row dataset with a ResponseId column at index 0
and two non-blank ids among three data rows. -/
theorem claim_C8_response_id_column_witness :
    CPA.Summary.total_respondents [["ResponseId"], [""], [""], ["R1"]] =
      (([["R1"]] : List (List String)).filter fun row =>
        CPA.pyStrip (CPA.cell row 0) ≠ "").length :=
  ((claim_C8_response_id_column [["ResponseId"], [""], [""], ["R1"]]
      (by decide)).2 0 (by decide)).2

/-- The distinct observed value list of a column is empty exactly when every
data row is empty (falsy) in that column. -/
theorem CPA.Summary.column_values_eq_nil_iff
    (dr : List (List String)) (idx : Nat) :
    CPA.Summary.column_values dr idx = [] ↔
      ∀ row ∈ dr, CPA.cell row idx = "" := by
  simp only [CPA.Summary.column_values, List.dedup_eq_nil,
    List.filter_eq_nil_iff]
  constructor
  · intro h row hrow
    by_contra hne
    exact h (CPA.cell row idx) (List.mem_map_of_mem _ hrow) (by simpa using hne)
  · intro h v hv
    rcases List.mem_map.mp hv with ⟨row, hrow, rfl⟩
    simpa using h row hrow

/-- Membership in the pre-sort result list forces: the column matched a
keyword, had at least one non-empty value, and carries the classified count
and derived percentage. -/
theorem CPA.Summary.of_mem_preResults
    {qs : List String} {dr : List (List String)} {t : Nat}
    {p : Nat × CPA.Summary.BarrierResult}
    (hp : p ∈ CPA.Summary.preResults qs dr t) :
    CPA.Summary.is_barrier_question p.2.name = true ∧
    CPA.Summary.column_values dr p.1 ≠ [] ∧
    p.2.count = CPA.Summary.classCount dr p.1 ∧
    p.2.percentage = CPA.Summary.mkPercentage (CPA.Summary.classCount dr p.1) t := by
  rcases List.mem_filterMap.mp hp with ⟨q, hq_mem, hq⟩
  by_cases hempty : CPA.Summary.column_values dr q.1 = []
  · simp [hempty] at hq
  · simp only [hempty, if_neg, if_false, Option.some.injEq] at hq
    rcases List.mem_filter.mp hq_mem with ⟨_, hbq⟩
    subst hq
    exact ⟨hbq, hempty, rfl, rfl⟩

/-- C10: in the ranked-summary pipeline a keyword-matched column whose data
rows contain no non-empty value is silently skipped: every pre-sort result
comes from a column with at least one non-empty observed value, and a column
all of whose data cells are empty contributes no result (the skip is a plain
`continue`, so it produces no error either: `preResults` is total). -/
theorem claim_C10_empty_columns_skipped :
    ∀ (qs : List String) (dr : List (List String)) (t : Nat),
      (∀ p ∈ CPA.Summary.preResults qs dr t,
        CPA.Summary.column_values dr p.1 ≠ []) ∧
      (∀ idx, CPA.Summary.column_values dr idx = [] ↔
        ∀ row ∈ dr, CPA.cell row idx = "") ∧
      (∀ idx, (∀ row ∈ dr, CPA.cell row idx = "") →
        ∀ p ∈ CPA.Summary.preResults qs dr t, p.1 ≠ idx) := by
  intro qs dr t
  refine ⟨fun p hp => (CPA.Summary.of_mem_preResults hp).2.1,
          fun idx => CPA.Summary.column_values_eq_nil_iff dr idx,
          fun idx hall p hp hcontra => ?_⟩
  have hne := (CPA.Summary.of_mem_preResults hp).2.1
  rw [hcontra] at hne
  exact hne ((CPA.Summary.column_values_eq_nil_iff dr idx).mpr hall)

/-- C10 witness: with one keyword column holding one "Selected" row, the
single produced result's column has a non-empty observed value list. -/
theorem claim_C10_empty_columns_skipped_witness :
    CPA.Summary.column_values [["Selected"]]
      ((0, { name := "barrier", count := 1, percentage := 0 }) :
        Nat × CPA.Summary.BarrierResult).1 ≠ [] :=
  (claim_C10_empty_columns_skipped ["barrier"] [["Selected"]] 0).1
    (0, { name := "barrier", count := 1, percentage := 0 }) (by decide)

/-- `is_multiselect` tests exactly the subset condition of the spec. -/
theorem CPA.Summary.is_multiselect_iff (vals : List String) :
    CPA.Summary.is_multiselect vals = true ↔
      ∀ v ∈ vals, v = "Selected" ∨ v = "Not Selected" := by
  simp [CPA.Summary.is_multiselect]

/-- `is_likert` tests exactly the "subset of one of the fixed vocabularies"
condition of the spec. -/
theorem CPA.Summary.is_likert_iff (vals : List String) :
    CPA.Summary.is_likert vals = true ↔
      ∃ s ∈ CPA.Summary.LIKERT_SETS, ∀ v ∈ vals, v ∈ s := by
  simp [CPA.Summary.is_likert]

/-- C5: the ranked-summary classification of a column depends only on its
set of distinct non-empty observed values (not on the question wording):
binary-selection whenever that set is a subset of {"Selected",
"Not Selected"}, otherwise ordinal-scale whenever it is a subset of one of
the three fixed Likert vocabularies, otherwise free-text; and the count is
respectively the number of rows equal to "Selected", the number of rows in
the top-two set, or the number of rows with a non-blank value.  Every result
the pipeline constructs carries exactly this count. -/
theorem claim_C5_classification_and_counts :
    ∀ (dr : List (List String)) (idx : Nat),
      ((∀ v ∈ CPA.Summary.column_values dr idx,
          v = "Selected" ∨ v = "Not Selected") →
        CPA.Summary.classify (CPA.Summary.column_values dr idx) = .multiselect ∧
        CPA.Summary.classCount dr idx =
          (dr.filter fun row => CPA.cell row idx = "Selected").length) ∧
      ((¬ ∀ v ∈ CPA.Summary.column_values dr idx,
          v = "Selected" ∨ v = "Not Selected") →
        (∃ s ∈ CPA.Summary.LIKERT_SETS,
          ∀ v ∈ CPA.Summary.column_values dr idx, v ∈ s) →
        CPA.Summary.classify (CPA.Summary.column_values dr idx) = .likert ∧
        CPA.Summary.classCount dr idx =
          CPA.countTopTwo CPA.Summary.LIKERT_TOP_TWO
            (dr.map fun row => CPA.cell row idx)) ∧
      ((¬ ∀ v ∈ CPA.Summary.column_values dr idx,
          v = "Selected" ∨ v = "Not Selected") →
        (¬ ∃ s ∈ CPA.Summary.LIKERT_SETS,
          ∀ v ∈ CPA.Summary.column_values dr idx, v ∈ s) →
        CPA.Summary.classify (CPA.Summary.column_values dr idx) = .freeText ∧
        CPA.Summary.classCount dr idx =
          (dr.filter fun row => CPA.pyStrip (CPA.cell row idx) ≠ "").length) ∧
      (∀ (qs : List String) (t : Nat) (p : Nat × CPA.Summary.BarrierResult),
        p ∈ CPA.Summary.preResults qs dr t →
        p.2.count = CPA.Summary.classCount dr p.1) := by
  intro dr idx
  refine ⟨?_, ?_, ?_, fun qs t p hp => (CPA.Summary.of_mem_preResults hp).2.2.1⟩
  · intro hsub
    have hm : CPA.Summary.is_multiselect (CPA.Summary.column_values dr idx) = true :=
      (CPA.Summary.is_multiselect_iff _).mpr hsub
    exact ⟨by simp [CPA.Summary.classify, hm],
           by simp [CPA.Summary.classCount, hm]⟩
  · intro hnsub hlik
    have hm : ¬ CPA.Summary.is_multiselect (CPA.Summary.column_values dr idx) = true :=
      fun h => hnsub ((CPA.Summary.is_multiselect_iff _).mp h)
    have hl : CPA.Summary.is_likert (CPA.Summary.column_values dr idx) = true :=
      (CPA.Summary.is_likert_iff _).mpr hlik
    exact ⟨by simp [CPA.Summary.classify, hm, hl],
           by simp [CPA.Summary.classCount, hm, hl]⟩
  · intro hnsub hnlik
    have hm : ¬ CPA.Summary.is_multiselect (CPA.Summary.column_values dr idx) = true :=
      fun h => hnsub ((CPA.Summary.is_multiselect_iff _).mp h)
    have hl : ¬ CPA.Summary.is_likert (CPA.Summary.column_values dr idx) = true :=
      fun h => hnlik ((CPA.Summary.is_likert_iff _).mp h)
    exact ⟨by simp [CPA.Summary.classify, hm, hl],
           by simp [CPA.Summary.classCount, hm, hl]⟩

/-- C5 witness: a column whose observed values are exactly
{"Selected", "Not Selected"} classifies as binary-selection with the
"Selected"-row count, whatever the question text. -/
theorem claim_C5_classification_and_counts_witness :
    CPA.Summary.classify
        (CPA.Summary.column_values [["Selected"], ["Not Selected"]] 0) =
      .multiselect ∧
    CPA.Summary.classCount [["Selected"], ["Not Selected"]] 0 =
      (([["Selected"], ["Not Selected"]] : List (List String)).filter
        fun row => CPA.cell row 0 = "Selected").length :=
  (claim_C5_classification_and_counts [["Selected"], ["Not Selected"]] 0).1
    (by decide)

/-- The per-group total counts exactly the data rows whose stripped group
cell equals the group. -/
theorem CPA.ByGroup.groupTotal_eq
    (dr : List (List String)) (gi : Nat) (g : String) :
    CPA.ByGroup.groupTotal dr gi g =
      (dr.filter fun row => CPA.pyStrip (CPA.cell row gi) = g).length := by
  unfold CPA.ByGroup.groupTotal CPA.ByGroup.groupValues
  rw [List.filter_map, List.length_map]
  rfl

/-- The indicator count never exceeds the group total: it counts a subset of
the same group's rows. -/
theorem CPA.ByGroup.indicatorCount_le_groupTotal
    (dr : List (List String)) (gi qi : Nat) (inds : List String) (g : String) :
    CPA.ByGroup.indicatorCount dr gi qi inds g ≤
      CPA.ByGroup.groupTotal dr gi g := by
  rw [CPA.ByGroup.groupTotal_eq]
  unfold CPA.ByGroup.indicatorCount CPA.countTopTwo
  calc ((((dr.filter fun row => CPA.pyStrip (CPA.cell row gi) = g).map
            fun row => CPA.pyStrip (CPA.cell row qi)).filter
              fun v => v ∈ inds).length)
      ≤ ((dr.filter fun row => CPA.pyStrip (CPA.cell row gi) = g).map
            fun row => CPA.pyStrip (CPA.cell row qi)).length :=
        List.length_filter_le _ _
    _ = (dr.filter fun row => CPA.pyStrip (CPA.cell row gi) = g).length :=
        List.length_map _ _

/-- Percentages are never negative. -/
theorem CPA.ByGroup.percentage_nonneg (r : CPA.ByGroup.BarrierResult) :
    0 ≤ r.percentage := by
  unfold CPA.ByGroup.BarrierResult.percentage
  split
  · positivity
  · exact le_refl 0

/-- A result whose count is bounded by its total has percentage at most
100. -/
theorem CPA.ByGroup.percentage_le_100 (r : CPA.ByGroup.BarrierResult)
    (h : r.count ≤ r.total) : r.percentage ≤ 100 := by
  unfold CPA.ByGroup.BarrierResult.percentage
  split
  · rename_i ht
    have h0 : (0 : ℚ) < (r.total : ℚ) := by
      exact_mod_cast Nat.pos_of_ne_zero ht
    have hc : (r.count : ℚ) ≤ (r.total : ℚ) := by exact_mod_cast h
    rw [div_mul_eq_mul_div, div_le_iff₀ h0]
    nlinarith
  · norm_num

/-- C9: every `BarrierResult` the group-comparison pipeline constructs
satisfies count ≤ total (the count increments only over that group's rows),
hence its derived percentage lies in [0, 100]. -/
theorem claim_C9_count_bounded_percentage_in_range :
    ∀ (dr : List (List String)) (gi : Nat) (groups : List String)
      (b : CPA.ByGroup.BarrierQuestion) (qi : Nat)
      (r : CPA.ByGroup.BarrierResult),
      r ∈ CPA.ByGroup.resultsFor dr gi groups b qi →
      r.count ≤ r.total ∧ 0 ≤ r.percentage ∧ r.percentage ≤ 100 := by
  intro dr gi groups b qi r hr
  rcases List.mem_map.mp hr with ⟨g, _, rfl⟩
  have hle := CPA.ByGroup.indicatorCount_le_groupTotal dr gi qi b.indicator_values g
  exact ⟨hle, CPA.ByGroup.percentage_nonneg _, CPA.ByGroup.percentage_le_100 _ hle⟩

/-- C9 witness: the single result of a one-row, one-group aggregation has
its count bounded by its total and its percentage inside [0, 100]. -/
theorem claim_C9_count_bounded_percentage_in_range_witness :
    ({ label := "l", group := "g",
       count := CPA.ByGroup.indicatorCount [["g", "yes"]] 0 1 ["yes"] "g",
       total := CPA.ByGroup.groupTotal [["g", "yes"]] 0 "g" } :
      CPA.ByGroup.BarrierResult).count ≤
      ({ label := "l", group := "g",
         count := CPA.ByGroup.indicatorCount [["g", "yes"]] 0 1 ["yes"] "g",
         total := CPA.ByGroup.groupTotal [["g", "yes"]] 0 "g" } :
        CPA.ByGroup.BarrierResult).total :=
  (claim_C9_count_bounded_percentage_in_range [["g", "yes"]] 0 ["g"]
    { label := "l", question_text := "q", indicator_values := ["yes"] } 1
    _ (by decide)).1

/-- A `filterMap` that preserves the `Nat` tag of everything it keeps yields
a tag list that is a sublist of the source's tag list. -/
theorem CPA.map_fst_filterMap_sublist {α β : Type}
    (g : Nat × α → Option (Nat × β))
    (hg : ∀ p q, g p = some q → q.1 = p.1) :
    ∀ l : List (Nat × α),
      ((l.filterMap g).map Prod.fst).Sublist (l.map Prod.fst) := by
  intro l
  induction l with
  | nil => simp
  | cons p t ih =>
    rw [List.filterMap_cons]
    cases hp : g p with
    | none =>
      simpa using ih.trans (List.sublist_cons_self p.1 (t.map Prod.fst))
    | some q =>
      simp only [List.map_cons]
      rw [hg p q hp]
      exact ih.cons₂ p.1

/-- The column indices of the pre-sort ranked results are strictly
increasing: the results are produced in column-encounter order. -/
theorem CPA.Summary.preResults_fst_increasing
    (qs : List String) (dr : List (List String)) (t : Nat) :
    ((CPA.Summary.preResults qs dr t).map Prod.fst).Pairwise (· < ·) := by
  have hrange : (qs.enum.map Prod.fst).Pairwise (· < ·) := by
    rw [List.enum_map_fst]
    exact List.pairwise_lt_range qs.length
  have hfil : (((qs.enum.filter fun p =>
      CPA.Summary.is_barrier_question p.2).map Prod.fst).Pairwise (· < ·)) :=
    hrange.sublist ((List.filter_sublist qs.enum).map Prod.fst)
  exact hfil.sublist (CPA.map_fst_filterMap_sublist _ (by
    intro p q hq
    by_cases hempty : CPA.Summary.column_values dr p.1 = []
    · simp [hempty] at hq
    · simp only [hempty, if_neg, if_false, Option.some.injEq] at hq
      rw [← hq]) _)

/-- C2: the ranked-summary pipeline's sort is by count descending and
stable: the output is a permutation of the pre-sort results; in the tagged
sorted list counts are non-increasing, and any two entries with equal
counts keep their original relative order — which, as the pre-sort list is
produced with strictly increasing column indices, is the column encounter
order of the question-text row. -/
theorem claim_C2_ranked_sort_descending_stable :
    ∀ (l : List CPA.Summary.BarrierResult),
      (CPA.Summary.pySortByCountDesc l).Perm l ∧
      ((l.enum.insertionSort CPA.Summary.countRel).Pairwise
        fun p q => q.2.count ≤ p.2.count) ∧
      ((l.enum.insertionSort CPA.Summary.countRel).Pairwise
        fun p q => p.2.count = q.2.count → p.1 < q.1) ∧
      ((CPA.Summary.pySortByCountDesc l).Pairwise
        fun a b => b.count ≤ a.count) ∧
      (∀ (qs : List String) (dr : List (List String)) (t : Nat),
        ((CPA.Summary.preResults qs dr t).map Prod.fst).Pairwise (· < ·)) ∧
      (∀ rows, CPA.Summary.sortedResults rows =
        CPA.Summary.pySortByCountDesc
          ((CPA.Summary.preResults (CPA.Summary.questions rows)
            (CPA.Summary.data_rows rows)
            (CPA.Summary.total_respondents rows)).map Prod.snd)) := by
  intro l
  have hs : (l.enum.insertionSort CPA.Summary.countRel).Pairwise
      CPA.Summary.countRel :=
    List.sorted_insertionSort CPA.Summary.countRel l.enum
  have hdesc : (l.enum.insertionSort CPA.Summary.countRel).Pairwise
      fun p q => q.2.count ≤ p.2.count := by
    refine hs.imp ?_
    rintro a b (hlt | ⟨heq, _⟩)
    · exact le_of_lt hlt
    · exact le_of_eq heq.symm
  have hne := CPA.sortedPairs_pairwise_ne_fst CPA.Summary.countRel l
  have hstable : (l.enum.insertionSort CPA.Summary.countRel).Pairwise
      fun p q => p.2.count = q.2.count → p.1 < q.1 := by
    refine (hs.and hne).imp ?_
    rintro a b ⟨hr, hfst⟩ heq
    rcases hr with hlt | ⟨_, hle⟩
    · omega
    · exact lt_of_le_of_ne hle hfst
  refine ⟨CPA.sortedPairs_map_snd_perm CPA.Summary.countRel l,
          hdesc, hstable, ?_,
          CPA.Summary.preResults_fst_increasing, fun _ => rfl⟩
  exact List.pairwise_map.mpr hdesc

/-- C2 witness: a concrete three-element result list (with a tie on count
1) is sorted to a permutation of itself. -/
theorem claim_C2_ranked_sort_descending_stable_witness :
    (CPA.Summary.pySortByCountDesc
      [{ name := "a", count := 1, percentage := 0 },
       { name := "b", count := 2, percentage := 0 },
       { name := "c", count := 1, percentage := 0 }]).Perm
      [{ name := "a", count := 1, percentage := 0 },
       { name := "b", count := 2, percentage := 0 },
       { name := "c", count := 1, percentage := 0 }] :=
  (claim_C2_ranked_sort_descending_stable _).1

/-- C3: for a barrier question with at least one per-group result, `lowest`
(the head of the stable percentage sort) attains the minimum percentage and
`highest` (its last element) the maximum; the comparison line is emitted
exactly when the two groups differ, and when emitted its gap is the highest
percentage minus the lowest percentage (the one-decimal rendering of that
exact value is string formatting, out of scope).  With no results for the
label, or coinciding groups, nothing is emitted. -/
theorem claim_C3_comparison_line_iff_groups_differ :
    ∀ (results : List CPA.ByGroup.BarrierResult)
      (b : CPA.ByGroup.BarrierQuestion),
      CPA.ByGroup.brsOf results b ≠ [] →
      CPA.ByGroup.lowestOf results b ∈ CPA.ByGroup.brsOf results b ∧
      CPA.ByGroup.highestOf results b ∈ CPA.ByGroup.brsOf results b ∧
      (∀ r ∈ CPA.ByGroup.brsOf results b,
        (CPA.ByGroup.lowestOf results b).percentage ≤ r.percentage ∧
        r.percentage ≤ (CPA.ByGroup.highestOf results b).percentage) ∧
      ((CPA.ByGroup.summaryFor results b).isSome ↔
        (CPA.ByGroup.highestOf results b).group ≠
          (CPA.ByGroup.lowestOf results b).group) ∧
      (∀ hb lb db, CPA.ByGroup.summaryFor results b = some (hb, lb, db) →
        hb = CPA.ByGroup.highestOf results b ∧
        lb = CPA.ByGroup.lowestOf results b ∧
        db = (CPA.ByGroup.highestOf results b).percentage -
            (CPA.ByGroup.lowestOf results b).percentage) := by
  intro results b hne
  have hperm : (CPA.ByGroup.pySortedByPercentage
      (CPA.ByGroup.brsOf results b)).Perm (CPA.ByGroup.brsOf results b) :=
    CPA.sortedPairs_map_snd_perm CPA.ByGroup.percRel _
  have hsne : CPA.ByGroup.pySortedByPercentage
      (CPA.ByGroup.brsOf results b) ≠ [] := by
    intro h
    apply hne
    have hlen := hperm.length_eq
    rw [h] at hlen
    exact List.length_eq_zero.mp hlen.symm
  have hs : ((CPA.ByGroup.brsOf results b).enum.insertionSort
      CPA.ByGroup.percRel).Pairwise CPA.ByGroup.percRel :=
    List.sorted_insertionSort _ _
  have hsorted : (CPA.ByGroup.pySortedByPercentage
      (CPA.ByGroup.brsOf results b)).Pairwise
      (fun a c => a.percentage ≤ c.percentage) := by
    refine List.pairwise_map.mpr (hs.imp ?_)
    rintro p q (hlt | ⟨heq, _⟩)
    · exact le_of_lt hlt
    · exact le_of_eq heq
  have hrefl : ∀ x : CPA.ByGroup.BarrierResult,
      x.percentage ≤ x.percentage := fun _ => le_refl _
  have hmin := CPA.sorted_headD_rel hrefl hsorted CPA.ByGroup.dflt
  have hmax := CPA.sorted_rel_getLastD hrefl hsorted CPA.ByGroup.dflt
  refine ⟨hperm.subset (CPA.headD_mem _ _ hsne),
          hperm.subset (CPA.getLastD_mem _ _ hsne),
          fun r hr => ⟨hmin r (hperm.mem_iff.mpr hr),
                       hmax r (hperm.mem_iff.mpr hr)⟩,
          ?_, ?_⟩
  · unfold CPA.ByGroup.summaryFor
    rw [if_neg hne]
    by_cases hgr : (CPA.ByGroup.highestOf results b).group =
        (CPA.ByGroup.lowestOf results b).group
    · simp [hgr]
    · simp [hgr]
  · intro hb lb db hsome
    unfold CPA.ByGroup.summaryFor at hsome
    rw [if_neg hne] at hsome
    by_cases hgr : (CPA.ByGroup.highestOf results b).group =
        (CPA.ByGroup.lowestOf results b).group
    · rw [if_pos hgr] at hsome
      exact absurd hsome (by simp)
    · rw [if_neg hgr] at hsome
      simp only [Option.some.injEq, Prod.mk.injEq] at hsome
      exact ⟨hsome.1.symm, hsome.2.1.symm, hsome.2.2.symm⟩

/-- C3 witness: with a single result for the label, the lowest pick is a
member of the label's result list (and, groups coinciding, no line would be
emitted). -/
theorem claim_C3_comparison_line_iff_groups_differ_witness :
    CPA.ByGroup.lowestOf [{ label := "L", group := "g1", count := 1, total := 1 }]
        { label := "L", question_text := "q", indicator_values := [] } ∈
      CPA.ByGroup.brsOf [{ label := "L", group := "g1", count := 1, total := 1 }]
        { label := "L", question_text := "q", indicator_values := [] } :=
  (claim_C3_comparison_line_iff_groups_differ
    [{ label := "L", group := "g1", count := 1, total := 1 }]
    { label := "L", question_text := "q", indicator_values := [] }
    (by decide)).1

/-- C7: the group sequence is exactly the distinct non-blank stripped
group-column values in strictly ascending (lexicographic) order, and a
validated run computes its results as one independent (count, total) pair
per group, in that group order. -/
theorem claim_C7_groups_sorted_distinct_independent :
    (∀ (dr : List (List String)) (gi : Nat),
      (CPA.ByGroup.sortedGroups dr gi).Pairwise (· < ·) ∧
      (∀ g, g ∈ CPA.ByGroup.sortedGroups dr gi ↔
        g ∈ CPA.ByGroup.groupValues dr gi ∧ g ≠ "")) ∧
    (∀ (rows : List (List String)) (out : CPA.ByGroup.GroupOutput),
      CPA.ByGroup.run rows = .ok out →
      ∀ gi, CPA.pyIndex CPA.ByGroup.GROUP_QUESTION (rows.getD 1 []) = some gi →
        out.groups = CPA.ByGroup.sortedGroups (rows.drop 3) gi ∧
        ∀ qi, CPA.pyIndex CPA.ByGroup.delayQuestionText (rows.getD 1 []) =
            some qi →
          out.results =
            (CPA.ByGroup.sortedGroups (rows.drop 3) gi).map fun g =>
              { label := "Graduate degree may delay career advancement",
                group := g,
                count := CPA.ByGroup.indicatorCount (rows.drop 3) gi qi
                  CPA.ByGroup.LIKERT_TOP_TWO g,
                total := CPA.ByGroup.groupTotal (rows.drop 3) gi g }) := by
  constructor
  · intro dr gi
    constructor
    · have hle : (CPA.ByGroup.sortedGroups dr gi).Pairwise (· ≤ ·) :=
        List.sorted_insertionSort _ _
      have hnd : (CPA.ByGroup.sortedGroups dr gi).Nodup :=
        (List.perm_insertionSort _ _).nodup_iff.mpr (List.nodup_dedup _)
      exact (hle.and hnd).imp fun h => lt_of_le_of_ne h.1 h.2
    · intro g
      simp [CPA.ByGroup.sortedGroups, List.mem_insertionSort, List.mem_dedup,
        List.mem_filter]
  · intro rows out hrun gi hgi
    simp only [CPA.ByGroup.run] at hrun
    by_cases hlen : rows.length < 4
    · simp [hlen] at hrun
    · rw [if_neg hlen] at hrun
      simp only [hgi] at hrun
      by_cases hg : CPA.ByGroup.sortedGroups (rows.drop 3) gi = []
      · simp [hg] at hrun
      · rw [if_neg hg] at hrun
        cases hpq : CPA.pyIndex CPA.ByGroup.delayQuestionText
            (rows.getD 1 []) with
        | none =>
          simp only [CPA.ByGroup.BARRIER_QUESTIONS, CPA.ByGroup.allResults,
            hpq] at hrun
          simp at hrun
        | some qi' =>
          simp only [CPA.ByGroup.BARRIER_QUESTIONS, CPA.ByGroup.allResults,
            hpq] at hrun
          simp only [Except.ok.injEq] at hrun
          subst hrun
          refine ⟨rfl, ?_⟩
          intro qi hqi
          have hq : qi' = qi := Option.some.inj hqi
          subst hq
          simp [CPA.ByGroup.resultsFor, CPA.ByGroup.BARRIER_QUESTIONS]

set_option maxRecDepth 8192 in
/-- C7 witness: a concrete validated 4-row dataset with a single group
value "Grad"; its output lists that group and one result for it. -/
theorem claim_C7_groups_sorted_distinct_independent_witness :
    ({ groups := ["Grad"],
       results := [{ label := "Graduate degree may delay career advancement",
                     group := "Grad", count := 1, total := 1 }],
       summaryLines := [] } : CPA.ByGroup.GroupOutput).groups =
      CPA.ByGroup.sortedGroups [["Grad", "Agree"]] 0 :=
  ((claim_C7_groups_sorted_distinct_independent.2
    [["h1", "h2"],
     [CPA.ByGroup.GROUP_QUESTION, CPA.ByGroup.delayQuestionText],
     ["m1", "m2"],
     ["Grad", "Agree"]]
    { groups := ["Grad"],
      results := [{ label := "Graduate degree may delay career advancement",
                    group := "Grad", count := 1, total := 1 }],
      summaryLines := [] }
    rfl 0 (by decide)).1)
